import Mathlib

/-!
A shallow embedding, over the real numbers, of the population-dynamics
routines in src/src/popddynCPP.cpp of DLMtool: the one-timestep update
popdynOneTScpp and the multi-year projection popdynCPP.  C++ doubles are
modelled as reals, Armadillo matrices and cubes as total functions from
natural-number indices, and entries are kept at their initial values
outside the regions the code writes.  The freshly allocated matrix Nnext
of popdynOneTScpp is left uninitialised by the source before the
recruitment branch, so the embedding threads its unspecified initial
contents through as an explicit argument `ini`.
-/

namespace PopDyn

/-- Recruitment into age class 0 for one area (popddynCPP.cpp lines 39-48):
Beverton-Holt when SRrel = 1, Ricker when SRrel = 2; for any other selector
neither branch writes, so the entry keeps the uninitialised contents `ini0`
of the Nnext matrix. -/
noncomputable def recruit (SRrel PerrYr hs R0a SSBpR aR bR SSB ini0 : ℝ) : ℝ :=
  if SRrel = 1 then
    PerrYr * (4 * R0a * hs * SSB) / (SSBpR * R0a * (1 - hs) + (5 * hs - 1) * SSB)
  else if SRrel = 2 then
    PerrYr * aR * SSB * Real.exp (-bR * SSB)
  else ini0

/-- The matrix Nnext of popdynOneTScpp after recruitment (lines 39-48),
ageing under total mortality (lines 53-55) and the optional plus-group
adjustment (lines 56-58), i.e. the pre-movement numbers-at-age;
entry (age, A). -/
noncomputable def Nnextpre (maxage : ℕ) (SSBcurr : ℕ → ℝ) (Ncurr Zcurr : ℕ → ℕ → ℝ)
    (PerrYr hs : ℝ) (R0a SSBpR aR bR : ℕ → ℝ) (SRrel : ℝ) (plusgroup : ℕ)
    (ini : ℕ → ℕ → ℝ) (age A : ℕ) : ℝ :=
  let base : ℝ :=
    if age = 0 then
      recruit SRrel PerrYr hs (R0a A) (SSBpR A) (aR A) (bR A) (SSBcurr A) (ini 0 A)
    else
      Ncurr (age - 1) A * Real.exp (-Zcurr (age - 1) A)
  if 0 < plusgroup ∧ age = maxage - 1 then
    base / (1 - Real.exp (-Zcurr (maxage - 1) A))
  else base

/-- Result of popdynOneTScpp (lines 62-77): the pre-movement numbers
redistributed through the movement tensor; entry (age, BB) sums
Nnext(age, AA) * mov(age, AA, BB) over source areas AA. -/
noncomputable def popdynOneTScpp (nareas maxage : ℕ) (SSBcurr : ℕ → ℝ)
    (Ncurr Zcurr : ℕ → ℕ → ℝ) (PerrYr hs : ℝ) (R0a SSBpR aR bR : ℕ → ℝ)
    (mov : ℕ → ℕ → ℕ → ℝ) (SRrel : ℝ) (plusgroup : ℕ) (ini : ℕ → ℕ → ℝ)
    (age BB : ℕ) : ℝ :=
  ∑ AA ∈ Finset.range nareas,
    Nnextpre maxage SSBcurr Ncurr Zcurr PerrYr hs R0a SSBpR aR bR SRrel plusgroup
      ini age AA * mov age AA BB

/-- Input record of popdynCPP (lines 120-126), with the fields in the order
of the C++ signature.  The extra field `ini` carries, for each projection
year, the unspecified initial contents of the Nnext matrix allocated inside
that year's popdynOneTScpp call. -/
structure PDIn where
  nareas : ℕ
  maxage : ℕ
  Ncurr : ℕ → ℕ → ℝ
  pyears : ℕ
  M_age : ℕ → ℕ → ℝ
  Asize_c : ℕ → ℝ
  MatAge : ℕ → ℕ → ℝ
  WtAge : ℕ → ℕ → ℝ
  Vuln : ℕ → ℕ → ℝ
  Retc : ℕ → ℕ → ℝ
  Prec : ℕ → ℝ
  movc : ℕ → ℕ → ℕ → ℕ → ℝ
  SRrelc : ℝ
  Effind : ℕ → ℝ
  Spat_targc : ℝ
  hc : ℝ
  R0c : ℕ → ℝ
  SSBpRc : ℕ → ℝ
  aRc : ℕ → ℝ
  bRc : ℕ → ℝ
  Qc : ℝ
  Fapic : ℝ
  maxF : ℝ
  MPA : ℕ → ℕ → ℝ
  control : ℤ
  SSB0c : ℝ
  plusgroup : ℕ
  ini : ℕ → ℕ → ℕ → ℝ

/-- Working state of popdynCPP: the nine cubes allocated at lines 128-136
(indexed age, year, area; zero-filled at allocation, entries outside the
written regions stay at their initial values), the effort distribution
(line 139), the SSB0a vector (line 146), the clones R0c2, aRc2, bRc2 of the
caller-supplied recruitment vectors (lines 142-144), and — to model the
caller's own vectors, which the clones protect from mutation — the fields
R0cIn, aRcIn, bRcIn holding the memory the caller passed in. -/
@[ext] structure PDState where
  Narray : ℕ → ℕ → ℕ → ℝ
  Barray : ℕ → ℕ → ℕ → ℝ
  SSNarray : ℕ → ℕ → ℕ → ℝ
  SBarray : ℕ → ℕ → ℕ → ℝ
  VBarray : ℕ → ℕ → ℕ → ℝ
  Marray : ℕ → ℕ → ℕ → ℝ
  FMarray : ℕ → ℕ → ℕ → ℝ
  FMretarray : ℕ → ℕ → ℕ → ℝ
  Zarray : ℕ → ℕ → ℕ → ℝ
  fishdist : ℕ → ℝ
  SSB0a : ℕ → ℝ
  R0c2 : ℕ → ℝ
  aRc2 : ℕ → ℝ
  bRc2 : ℕ → ℝ
  R0cIn : ℕ → ℝ
  aRcIn : ℕ → ℝ
  bRcIn : ℕ → ℝ

/-- The Fmax condition (lines 188-191, repeated at 277-280): every entry of
the cube strictly above maxF is replaced by maxF — a pointwise min with
maxF over the whole cube. -/
noncomputable def clampF (maxF : ℝ) (c : ℕ → ℕ → ℕ → ℝ) : ℕ → ℕ → ℕ → ℝ :=
  fun age yr A => min (c age yr A) maxF

/-- VBarray after the year-0 initialisation (line 160):
Ncurr × weight × vulnerability at year 0, zero elsewhere. -/
noncomputable def VB0 (inp : PDIn) : ℕ → ℕ → ℕ → ℝ :=
  fun age yr A =>
    if age < inp.maxage ∧ yr = 0 ∧ A < inp.nareas then
      inp.Ncurr age A * inp.WtAge age 0 * inp.Vuln age 0
    else 0

/-- Vulnerable-biomass totals per area at year 0 (line 162): accu over the
whole area-A slice of VBarray, of which only year 0 has been written. -/
noncomputable def tempVec0 (inp : PDIn) (A : ℕ) : ℝ :=
  ∑ age ∈ Finset.range inp.maxage, ∑ yr ∈ Finset.range inp.pyears, VB0 inp age yr A

/-- Year-0 spatial effort distribution (line 166): vulnerable biomass to the
spatial-targeting power, normalised by the sum over areas. -/
noncomputable def fishdist0 (inp : PDIn) (A : ℕ) : ℝ :=
  tempVec0 inp A ^ inp.Spat_targc
    / ∑ B ∈ Finset.range inp.nareas, tempVec0 inp B ^ inp.Spat_targc

/-- Year-0 fishing mortality before the Fmax condition (lines 169-180):
effort-based in control mode 1, apical-F-based in mode 2, untouched (zero)
otherwise. -/
noncomputable def FMraw0 (inp : PDIn) : ℕ → ℕ → ℕ → ℝ :=
  fun age yr A =>
    if age < inp.maxage ∧ yr = 0 ∧ A < inp.nareas then
      if inp.control = 1 then
        inp.Effind 0 * inp.Qc * fishdist0 inp A * inp.Vuln age 0 / inp.Asize_c A
      else if inp.control = 2 then
        inp.Fapic * fishdist0 inp A * inp.Vuln age 0 / inp.Asize_c A
      else 0
    else 0

/-- Year-0 retained fishing mortality before the Fmax condition
(lines 172 and 178), with retention in place of vulnerability. -/
noncomputable def FMretraw0 (inp : PDIn) : ℕ → ℕ → ℕ → ℝ :=
  fun age yr A =>
    if age < inp.maxage ∧ yr = 0 ∧ A < inp.nareas then
      if inp.control = 1 then
        inp.Effind 0 * inp.Qc * fishdist0 inp A * inp.Retc age 0 / inp.Asize_c A
      else if inp.control = 2 then
        inp.Fapic * fishdist0 inp A * inp.Retc age 0 / inp.Asize_c A
      else 0
    else 0

/-- State after the year-0 initialisation of popdynCPP (lines 128-193):
year 0 of the cubes is filled from Ncurr and the year-0 schedules, the
year-0 fishing mortalities are computed and clamped, total mortality is
natural + clamped fishing mortality, and the recruitment vectors are
cloned. -/
noncomputable def initState (inp : PDIn) : PDState where
  Narray := fun age yr A =>
    if age < inp.maxage ∧ yr = 0 ∧ A < inp.nareas then inp.Ncurr age A else 0
  Barray := fun age yr A =>
    if age < inp.maxage ∧ yr = 0 ∧ A < inp.nareas then
      inp.Ncurr age A * inp.WtAge age 0
    else 0
  SSNarray := fun age yr A =>
    if age < inp.maxage ∧ yr = 0 ∧ A < inp.nareas then
      inp.Ncurr age A * inp.MatAge age 0
    else 0
  SBarray := fun age yr A =>
    if age < inp.maxage ∧ yr = 0 ∧ A < inp.nareas then
      inp.Ncurr age A * inp.WtAge age 0 * inp.MatAge age 0
    else 0
  VBarray := VB0 inp
  Marray := fun age yr A =>
    if age < inp.maxage ∧ yr = 0 ∧ A < inp.nareas then inp.M_age age 0 else 0
  FMarray := clampF inp.maxF (FMraw0 inp)
  FMretarray := clampF inp.maxF (FMretraw0 inp)
  Zarray := fun age yr A =>
    if age < inp.maxage ∧ yr = 0 ∧ A < inp.nareas then
      inp.M_age age 0 + clampF inp.maxF (FMraw0 inp) age 0 A
    else 0
  fishdist := fishdist0 inp
  SSB0a := fun _ => 0
  R0c2 := inp.R0c
  aRc2 := inp.aRc
  bRc2 := inp.bRc
  R0cIn := inp.R0c
  aRcIn := inp.aRc
  bRcIn := inp.bRc

/-- Per-area spawning biomass accumulated from SBarray at year yr
(line 200). -/
noncomputable def SBcurrY (inp : PDIn) (yr : ℕ) (s : PDState) (A : ℕ) : ℝ :=
  ∑ age ∈ Finset.range inp.maxage, s.SBarray age yr A

/-- Spawning biomass passed to the one-timestep update at year yr
(lines 200-201): the accumulated SBarray column, except that control
mode 3 after year 0 passes the stored SSB0a vector instead. -/
noncomputable def SBsel (inp : PDIn) (yr : ℕ) (s : PDState) : ℕ → ℝ :=
  if 0 < yr ∧ inp.control = 3 then s.SSB0a else SBcurrY inp yr s

/-- NextYrN (lines 203-210): the popdynOneTScpp call advancing year yr to
year yr+1, with recruitment deviation Prec(yr + maxage), the cloned
recruitment vectors, and the year-yr movement tensor. -/
noncomputable def NextYrN (inp : PDIn) (yr : ℕ) (s : PDState) : ℕ → ℕ → ℝ :=
  fun age A =>
    popdynOneTScpp inp.nareas inp.maxage (SBsel inp yr s)
      (fun a r => s.Narray a yr r) (fun a r => s.Zarray a yr r)
      (inp.Prec (yr + inp.maxage)) inp.hc s.R0c2 inp.SSBpRc s.aRc2 s.bRc2
      (inp.movc yr) inp.SRrelc inp.plusgroup (inp.ini yr) age A

/-- Per-area vulnerable-biomass totals for year yr+1 (line 219). -/
noncomputable def tempVecN (inp : PDIn) (yr : ℕ) (s : PDState) (A : ℕ) : ℝ :=
  ∑ age ∈ Finset.range inp.maxage,
    NextYrN inp yr s age A * inp.WtAge age (yr + 1) * inp.Vuln age (yr + 1)

/-- Normalised spatial effort weights for year yr+1 (line 223). -/
noncomputable def fishdistN (inp : PDIn) (yr : ℕ) (s : PDState) (A : ℕ) : ℝ :=
  tempVecN inp yr s A ^ inp.Spat_targc
    / ∑ B ∈ Finset.range inp.nareas, tempVecN inp yr s B ^ inp.Spat_targc

/-- Closure-masked weights d1 (lines 225-228): the year-yr closure schedule
times the normalised weight. -/
noncomputable def d1 (inp : PDIn) (yr : ℕ) (s : PDState) (A : ℕ) : ℝ :=
  inp.MPA yr A * fishdistN inp yr s A

/-- Fraction of current effort in open areas (line 229). -/
noncomputable def fracE (inp : PDIn) (yr : ℕ) (s : PDState) : ℝ :=
  ∑ A ∈ Finset.range inp.nareas, d1 inp yr s A

/-- Reallocated effort shares fracE2 (lines 230-234): each closure-masked
weight times (fracE + (1 - fracE))/fracE; assigned back to fishdist. -/
noncomputable def fracE2 (inp : PDIn) (yr : ℕ) (s : PDState) (A : ℕ) : ℝ :=
  d1 inp yr s A * (fracE inp yr s + (1 - fracE inp yr s)) / fracE inp yr s

/-- Fishing mortality for year yr+1 before the Fmax condition
(lines 237-250): effort-based in control mode 1, apical-F-based in mode 2,
the cube left untouched otherwise. -/
noncomputable def FMrawN (inp : PDIn) (yr : ℕ) (s : PDState) : ℕ → ℕ → ℕ → ℝ :=
  fun age y A =>
    if age < inp.maxage ∧ y = yr + 1 ∧ A < inp.nareas then
      if inp.control = 1 then
        inp.Effind (yr + 1) * inp.Qc * fracE2 inp yr s A * inp.Vuln age (yr + 1)
          / inp.Asize_c A
      else if inp.control = 2 then
        inp.Fapic * fracE2 inp yr s A * inp.Vuln age (yr + 1) / inp.Asize_c A
      else s.FMarray age y A
    else s.FMarray age y A

/-- Retained fishing mortality for year yr+1 before the Fmax condition
(lines 240 and 247), with retention in place of vulnerability. -/
noncomputable def FMretrawN (inp : PDIn) (yr : ℕ) (s : PDState) : ℕ → ℕ → ℕ → ℝ :=
  fun age y A =>
    if age < inp.maxage ∧ y = yr + 1 ∧ A < inp.nareas then
      if inp.control = 1 then
        inp.Effind (yr + 1) * inp.Qc * fracE2 inp yr s A * inp.Retc age (yr + 1)
          / inp.Asize_c A
      else if inp.control = 2 then
        inp.Fapic * fracE2 inp yr s A * inp.Retc age (yr + 1) / inp.Asize_c A
      else s.FMretarray age y A
    else s.FMretarray age y A

/-- Total unfished recruitment R0 (line 147), computed once from the
caller-supplied R0c. -/
noncomputable def R0tot (inp : PDIn) : ℝ :=
  ∑ A ∈ Finset.range inp.nareas, inp.R0c A

/-- Per-area spawning biomass of the freshly written year yr+1 (line 257):
accu over ages of the new SBarray column. -/
noncomputable def SB1 (inp : PDIn) (yr : ℕ) (s : PDState) (A : ℕ) : ℝ :=
  ∑ age ∈ Finset.range inp.maxage,
    NextYrN inp yr s age A * inp.WtAge age (yr + 1) * inp.MatAge age (yr + 1)

/-- Control-mode-3 update of SSB0a (lines 256-261): the year-yr+1 spawning
biomass per area, rescaled so its area-sum matches SSB0c. -/
noncomputable def SSB0aN (inp : PDIn) (yr : ℕ) (s : PDState) : ℕ → ℝ :=
  fun A =>
    if A < inp.nareas then
      SB1 inp yr s A / ((∑ B ∈ Finset.range inp.nareas, SB1 inp yr s B) / inp.SSB0c)
    else s.SSB0a A

/-- Control-mode-3 update of the cloned R0c2 (lines 258 and 262): the
year-yr spawning biomass per area, rescaled so its area-sum matches the
original total R0. -/
noncomputable def R0c2N (inp : PDIn) (yr : ℕ) (s : PDState) : ℕ → ℝ :=
  fun A =>
    if A < inp.nareas then
      SBcurrY inp yr s A
        / ((∑ B ∈ Finset.range inp.nareas, SBcurrY inp yr s B) / R0tot inp)
    else s.R0c2 A

/-- Control-mode-3 update of the cloned Ricker b parameter (line 266). -/
noncomputable def bRc2N (inp : PDIn) (yr : ℕ) (s : PDState) : ℕ → ℝ :=
  fun A =>
    if A < inp.nareas then
      Real.log (5 * inp.hc) / (0.8 * SSB0aN inp yr s A)
    else s.bRc2 A

/-- Control-mode-3 update of the cloned Ricker a parameter (line 267). -/
noncomputable def aRc2N (inp : PDIn) (yr : ℕ) (s : PDState) : ℕ → ℝ :=
  fun A =>
    if A < inp.nareas then
      Real.exp (bRc2N inp yr s A * SSB0aN inp yr s A) / inp.SSBpRc A
    else s.aRc2 A

/-- One iteration of the projection loop of popdynCPP (lines 195-285) for
loop index yr: advance the population to year yr+1, derive the biomass
cubes, recompute and reallocate the effort distribution, then either (mode
3) set total mortality to natural mortality and refresh the unfished
recruitment parameters, or (other modes) compute and clamp the fishing
mortalities and set total mortality to natural + fishing. -/
noncomputable def step (inp : PDIn) (yr : ℕ) (s : PDState) : PDState where
  Narray := fun age y A =>
    if age < inp.maxage ∧ y = yr + 1 ∧ A < inp.nareas then NextYrN inp yr s age A
    else s.Narray age y A
  Barray := fun age y A =>
    if age < inp.maxage ∧ y = yr + 1 ∧ A < inp.nareas then
      NextYrN inp yr s age A * inp.WtAge age (yr + 1)
    else s.Barray age y A
  SSNarray := fun age y A =>
    if age < inp.maxage ∧ y = yr + 1 ∧ A < inp.nareas then
      NextYrN inp yr s age A * inp.MatAge age (yr + 1)
    else s.SSNarray age y A
  SBarray := fun age y A =>
    if age < inp.maxage ∧ y = yr + 1 ∧ A < inp.nareas then
      NextYrN inp yr s age A * inp.WtAge age (yr + 1) * inp.MatAge age (yr + 1)
    else s.SBarray age y A
  VBarray := fun age y A =>
    if age < inp.maxage ∧ y = yr + 1 ∧ A < inp.nareas then
      NextYrN inp yr s age A * inp.WtAge age (yr + 1) * inp.Vuln age (yr + 1)
    else s.VBarray age y A
  Marray := fun age y A =>
    if age < inp.maxage ∧ y = yr + 1 ∧ A < inp.nareas then inp.M_age age (yr + 1)
    else s.Marray age y A
  FMarray :=
    if inp.control = 3 then s.FMarray else clampF inp.maxF (FMrawN inp yr s)
  FMretarray :=
    if inp.control = 3 then s.FMretarray else clampF inp.maxF (FMretrawN inp yr s)
  Zarray := fun age y A =>
    if age < inp.maxage ∧ y = yr + 1 ∧ A < inp.nareas then
      if inp.control = 3 then inp.M_age age (yr + 1)
      else inp.M_age age (yr + 1) + clampF inp.maxF (FMrawN inp yr s) age (yr + 1) A
    else s.Zarray age y A
  fishdist := fracE2 inp yr s
  SSB0a := if inp.control = 3 then SSB0aN inp yr s else s.SSB0a
  R0c2 := if inp.control = 3 then R0c2N inp yr s else s.R0c2
  aRc2 := if inp.control = 3 then aRc2N inp yr s else s.aRc2
  bRc2 := if inp.control = 3 then bRc2N inp yr s else s.bRc2
  R0cIn := s.R0cIn
  aRcIn := s.aRcIn
  bRcIn := s.bRcIn

/-- State of popdynCPP after the initialisation and the first k iterations
of the projection loop. -/
noncomputable def stateAfter (inp : PDIn) : ℕ → PDState
  | 0 => initState inp
  | k + 1 => step inp k (stateAfter inp k)

/-- Final state of popdynCPP: the loop at line 195 runs yr = 0 .. pyears-2,
so the returned cubes (lines 287-297) are those of the state after
pyears - 1 iterations. -/
noncomputable def popdynCPP (inp : PDIn) : PDState :=
  stateAfter inp (inp.pyears - 1)

/-- The same input with the control flag replaced, for comparing control
modes. -/
def withControl (inp : PDIn) (c : ℤ) : PDIn := { inp with control := c }

/-- Concrete popdynCPP input for C2: one area, one age class, one
projection year, natural mortality 1, effort 1, catchability 2, cap
maxF = 1/2, control mode 1. -/
noncomputable def C2inp : PDIn where
  nareas := 1
  maxage := 1
  Ncurr := fun _ _ => 1
  pyears := 1
  M_age := fun _ _ => 1
  Asize_c := fun _ => 1
  MatAge := fun _ _ => 1
  WtAge := fun _ _ => 1
  Vuln := fun _ _ => 1
  Retc := fun _ _ => 1
  Prec := fun _ => 1
  movc := fun _ _ _ _ => 1
  SRrelc := 1
  Effind := fun _ => 1
  Spat_targc := 1
  hc := 1/2
  R0c := fun _ => 1
  SSBpRc := fun _ => 1
  aRc := fun _ => 1
  bRc := fun _ => 1
  Qc := 2
  Fapic := 2
  maxF := 1/2
  MPA := fun _ _ => 1
  control := 1
  SSB0c := 1
  plusgroup := 0
  ini := fun _ _ _ => 0

/-- Concrete popdynCPP input for C5: one area, one age class, two
projection years, all schedules 1, no natural mortality, control mode 1. -/
noncomputable def C5inp : PDIn where
  nareas := 1
  maxage := 1
  Ncurr := fun _ _ => 1
  pyears := 2
  M_age := fun _ _ => 0
  Asize_c := fun _ => 1
  MatAge := fun _ _ => 1
  WtAge := fun _ _ => 1
  Vuln := fun _ _ => 1
  Retc := fun _ _ => 1
  Prec := fun _ => 1
  movc := fun _ _ _ _ => 1
  SRrelc := 1
  Effind := fun _ => 1
  Spat_targc := 1
  hc := 1/2
  R0c := fun _ => 1
  SSBpRc := fun _ => 1
  aRc := fun _ => 1
  bRc := fun _ => 1
  Qc := 1
  Fapic := 1
  maxF := 100
  MPA := fun _ _ => 1
  control := 1
  SSB0c := 1
  plusgroup := 0
  ini := fun _ _ _ => 0

/-- Concrete popdynCPP input for C6, identical to the C5 shape. -/
noncomputable def C6inp : PDIn where
  nareas := 1
  maxage := 1
  Ncurr := fun _ _ => 1
  pyears := 2
  M_age := fun _ _ => 0
  Asize_c := fun _ => 1
  MatAge := fun _ _ => 1
  WtAge := fun _ _ => 1
  Vuln := fun _ _ => 1
  Retc := fun _ _ => 1
  Prec := fun _ => 1
  movc := fun _ _ _ _ => 1
  SRrelc := 1
  Effind := fun _ => 1
  Spat_targc := 1
  hc := 1/2
  R0c := fun _ => 1
  SSBpRc := fun _ => 1
  aRc := fun _ => 1
  bRc := fun _ => 1
  Qc := 1
  Fapic := 1
  maxF := 100
  MPA := fun _ _ => 1
  control := 1
  SSB0c := 1
  plusgroup := 0
  ini := fun _ _ _ => 0

/-- Concrete popdynCPP input for C7: one area, no closures, effort 1,
catchability 1 and apical F 1, so effort × catchability = apical F. -/
noncomputable def C7inp : PDIn where
  nareas := 1
  maxage := 2
  Ncurr := fun _ _ => 1
  pyears := 3
  M_age := fun _ _ => 1/5
  Asize_c := fun _ => 1
  MatAge := fun _ _ => 1
  WtAge := fun _ _ => 1
  Vuln := fun _ _ => 1
  Retc := fun _ _ => 1
  Prec := fun _ => 1
  movc := fun _ _ _ _ => 1
  SRrelc := 1
  Effind := fun _ => 1
  Spat_targc := 1
  hc := 1/2
  R0c := fun _ => 1
  SSBpRc := fun _ => 1
  aRc := fun _ => 1
  bRc := fun _ => 1
  Qc := 1
  Fapic := 1
  maxF := 100
  MPA := fun _ _ => 1
  control := 1
  SSB0c := 1
  plusgroup := 0
  ini := fun _ _ _ => 0

/-- Concrete popdynCPP input for C8: control mode 3 with natural mortality
1 and a nonnegative cap. -/
noncomputable def C8inp : PDIn where
  nareas := 1
  maxage := 1
  Ncurr := fun _ _ => 1
  pyears := 1
  M_age := fun _ _ => 1
  Asize_c := fun _ => 1
  MatAge := fun _ _ => 1
  WtAge := fun _ _ => 1
  Vuln := fun _ _ => 1
  Retc := fun _ _ => 1
  Prec := fun _ => 1
  movc := fun _ _ _ _ => 1
  SRrelc := 1
  Effind := fun _ => 1
  Spat_targc := 1
  hc := 1/2
  R0c := fun _ => 1
  SSBpRc := fun _ => 1
  aRc := fun _ => 1
  bRc := fun _ => 1
  Qc := 2
  Fapic := 2
  maxF := 1/2
  MPA := fun _ _ => 1
  control := 3
  SSB0c := 1
  plusgroup := 0
  ini := fun _ _ _ => 0

/-- Concrete popdynCPP input for the C8 counterexample: control mode 3 with
a negative cap maxF = -1, which the unconditional year-0 clamp writes into
the whole (otherwise zero) fishing-mortality cube. -/
noncomputable def C8cexinp : PDIn where
  nareas := 1
  maxage := 1
  Ncurr := fun _ _ => 1
  pyears := 1
  M_age := fun _ _ => 1
  Asize_c := fun _ => 1
  MatAge := fun _ _ => 1
  WtAge := fun _ _ => 1
  Vuln := fun _ _ => 1
  Retc := fun _ _ => 1
  Prec := fun _ => 1
  movc := fun _ _ _ _ => 1
  SRrelc := 1
  Effind := fun _ => 1
  Spat_targc := 1
  hc := 1/2
  R0c := fun _ => 1
  SSBpRc := fun _ => 1
  aRc := fun _ => 1
  bRc := fun _ => 1
  Qc := 2
  Fapic := 2
  maxF := -1
  MPA := fun _ _ => 1
  control := 3
  SSB0c := 1
  plusgroup := 0
  ini := fun _ _ _ => 0

/-- Concrete numbers-at-age for the C4 scenario: 100 at age 0, 50 above. -/
noncomputable def C4Ncurr : ℕ → ℕ → ℝ := fun a _ => if a = 0 then 100 else 50

/-- Concrete numbers-at-age for the C3 counterexample: 0 at age 0, 5 above. -/
noncomputable def C3Ncurr : ℕ → ℕ → ℝ := fun a _ => if a = 0 then 0 else 5

/-- C1: at any age, if the movement fractions out of every source area sum
to 1 over destination areas, the movement step of popdynOneTScpp conserves
abundance at that age: the sum of the output over destination areas equals
the sum of the pre-movement numbers-at-age over source areas. -/
theorem C1_movement_conserves (nareas maxage : ℕ) (SSBcurr : ℕ → ℝ)
    (Ncurr Zcurr : ℕ → ℕ → ℝ) (PerrYr hs : ℝ) (R0a SSBpR aR bR : ℕ → ℝ)
    (mov : ℕ → ℕ → ℕ → ℝ) (SRrel : ℝ) (plusgroup : ℕ) (ini : ℕ → ℕ → ℝ) (age : ℕ)
    (hmov : ∀ A, A < nareas → ∑ B ∈ Finset.range nareas, mov age A B = 1) :
    ∑ B ∈ Finset.range nareas,
        popdynOneTScpp nareas maxage SSBcurr Ncurr Zcurr PerrYr hs R0a SSBpR aR bR
          mov SRrel plusgroup ini age B
      = ∑ A ∈ Finset.range nareas,
          Nnextpre maxage SSBcurr Ncurr Zcurr PerrYr hs R0a SSBpR aR bR SRrel
            plusgroup ini age A := by
  unfold popdynOneTScpp
  rw [Finset.sum_comm]
  refine Finset.sum_congr rfl fun A hA => ?_
  rw [← Finset.mul_sum, hmov A (Finset.mem_range.mp hA), mul_one]

/-- Witness for C1 at a concrete two-area input whose movement fractions
are 1/2 to each destination. -/
theorem C1_movement_conserves_witness :
    ∑ B ∈ Finset.range 2,
        popdynOneTScpp 2 3 (fun _ => 1) (fun _ _ => 1) (fun _ _ => 1) 1 (1/2)
          (fun _ => 1) (fun _ => 1) (fun _ => 1) (fun _ => 1) (fun _ _ _ => 1/2) 1 0
          (fun _ _ => 0) 1 B
      = ∑ A ∈ Finset.range 2,
          Nnextpre 3 (fun _ => 1) (fun _ _ => 1) (fun _ _ => 1) 1 (1/2) (fun _ => 1)
            (fun _ => 1) (fun _ => 1) (fun _ => 1) 1 0 (fun _ _ => 0) 1 A :=
  C1_movement_conserves 2 3 _ _ _ _ _ _ _ _ _ _ _ _ _ 1 (by
    intro A hA
    norm_num [Finset.sum_range_succ])

/-- C4: away from the plus-group adjustment (plus group disabled, or age
below the final age class), the pre-movement abundance at each age a with
1 ≤ a equals the input abundance at age a-1 decayed by exp(-Z(a-1)); and in
the one-area, two-age, M = 0.2, unfished, deviation-1 scenario the age-1
output of popdynOneTScpp is 100 * exp(-0.2) from age-0 abundance 100. -/
theorem C4_ageing :
    (∀ (maxage : ℕ) (SSBcurr : ℕ → ℝ) (Ncurr Zcurr : ℕ → ℕ → ℝ) (PerrYr hs : ℝ)
        (R0a SSBpR aR bR : ℕ → ℝ) (SRrel : ℝ) (plusgroup : ℕ) (ini : ℕ → ℕ → ℝ)
        (age A : ℕ), 1 ≤ age → (plusgroup = 0 ∨ age + 1 < maxage) →
      Nnextpre maxage SSBcurr Ncurr Zcurr PerrYr hs R0a SSBpR aR bR SRrel
          plusgroup ini age A
        = Ncurr (age - 1) A * Real.exp (-Zcurr (age - 1) A))
    ∧ popdynOneTScpp 1 2 (fun _ => 1) C4Ncurr (fun _ _ => 1/5) 1 (1/2) (fun _ => 1)
        (fun _ => 1) (fun _ => 1) (fun _ => 1) (fun _ _ _ => 1) 1 0 (fun _ _ => 0) 1 0
      = 100 * Real.exp (-(1/5)) := by
  constructor
  · intro maxage SSBcurr Ncurr Zcurr PerrYr hs R0a SSBpR aR bR SRrel plusgroup ini
      age A hage hside
    have hne : ¬ age = 0 := by omega
    rcases hside with h | h
    · subst h
      simp [Nnextpre, hne]
    · have hlast : ¬ age = maxage - 1 := by omega
      simp [Nnextpre, hne, hlast]
  · norm_num [popdynOneTScpp, Nnextpre, C4Ncurr, Finset.sum_range_one]

/-- Witness for C4 at a concrete input with age 2 of 4 age classes. -/
theorem C4_ageing_witness :
    Nnextpre 4 (fun _ => 1) (fun _ _ => 3) (fun _ _ => 1) 1 (1/2) (fun _ => 1)
        (fun _ => 1) (fun _ => 1) (fun _ => 1) 1 0 (fun _ _ => 0) 2 0
      = (fun (_ _ : ℕ) => (3:ℝ)) (2 - 1) 0
          * Real.exp (-(fun (_ _ : ℕ) => (1:ℝ)) (2 - 1) 0) :=
  C4_ageing.1 4 _ _ _ _ _ _ _ _ _ 1 0 _ 2 0 (by norm_num) (Or.inl rfl)

/-- C4 counterexample: with the plus group enabled, at the final age class
(a = 1 of maxage = 2, with unit abundances and Z = 1 everywhere) the
pre-movement abundance produced by popdynOneTScpp is
exp(-1)/(1 - exp(-1)), not the input abundance at age 0 times exp(-1). -/
theorem C4_counterexample :
    Nnextpre 2 (fun _ => 1) (fun _ _ => 1) (fun _ _ => 1) 1 (1/2) (fun _ => 1)
        (fun _ => 1) (fun _ => 1) (fun _ => 1) 1 1 (fun _ _ => 0) 1 0
      ≠ (fun (_ _ : ℕ) => (1:ℝ)) (1 - 1) 0
          * Real.exp (-(fun (_ _ : ℕ) => (1:ℝ)) (1 - 1) 0) := by
  have he : Real.exp (-(1:ℝ)) < 1 := by
    calc Real.exp (-(1:ℝ)) < Real.exp 0 := Real.exp_lt_exp.mpr (by norm_num)
      _ = 1 := Real.exp_zero
  have hpos : (0:ℝ) < Real.exp (-(1:ℝ)) := Real.exp_pos _
  have hden : (0:ℝ) < 1 - Real.exp (-(1:ℝ)) := by linarith
  have hval : Nnextpre 2 (fun _ => 1) (fun _ _ => 1) (fun _ _ => 1) 1 (1/2)
      (fun _ => 1) (fun _ => 1) (fun _ => 1) (fun _ => 1) 1 1 (fun _ _ => 0) 1 0
        = Real.exp (-(1:ℝ)) / (1 - Real.exp (-(1:ℝ))) := by
    norm_num [Nnextpre]
  rw [hval]
  have hgt : (fun (_ _ : ℕ) => (1:ℝ)) (1 - 1) 0
      * Real.exp (-(fun (_ _ : ℕ) => (1:ℝ)) (1 - 1) 0)
        < Real.exp (-(1:ℝ)) / (1 - Real.exp (-(1:ℝ))) := by
    have : Real.exp (-(1:ℝ)) < Real.exp (-(1:ℝ)) / (1 - Real.exp (-(1:ℝ))) := by
      rw [lt_div_iff₀ hden]
      nlinarith
    simpa using this
  exact ne_of_gt hgt

/-- C3 counterexample: a one-area, two-age input with total mortality 1 > 0
at the final age but zero abundance feeding the final age class; the
plus-group and non-plus-group results of popdynOneTScpp coincide (both
zero), so the final age-class abundance is not strictly greater with the
plus group enabled even though Z > 0. -/
theorem C3_counterexample :
    (0:ℝ) < (fun (_ _ : ℕ) => (1:ℝ)) 1 0 ∧
    ¬ (popdynOneTScpp 1 2 (fun _ => 1) C3Ncurr (fun _ _ => 1) 1 (1/2) (fun _ => 1)
          (fun _ => 1) (fun _ => 1) (fun _ => 1) (fun _ _ _ => 1) 1 1 (fun _ _ => 0) 1 0
        > popdynOneTScpp 1 2 (fun _ => 1) C3Ncurr (fun _ _ => 1) 1 (1/2) (fun _ => 1)
          (fun _ => 1) (fun _ => 1) (fun _ => 1) (fun _ _ _ => 1) 1 0 (fun _ _ => 0) 1 0) := by
  constructor
  · norm_num
  · norm_num [popdynOneTScpp, Nnextpre, C3Ncurr, Finset.sum_range_one]

/-- C3 (amended): with nonnegative input abundances, nonnegative movement
fractions and strictly positive final-age total mortality in every area,
enabling the plus group yields final age-class output at least the
non-plus-group output at every destination area, and strictly greater at
destinations reached with positive movement fraction from a source area
with positive age-(maxage-2) input abundance.  (When Z = 0 at the final
age the plus-group divisor 1 - exp(-Z) is zero, so the original claim's
equality case does not hold.) -/
theorem C3_amended (nareas maxage : ℕ) (SSBcurr : ℕ → ℝ) (Ncurr Zcurr : ℕ → ℕ → ℝ)
    (PerrYr hs : ℝ) (R0a SSBpR aR bR : ℕ → ℝ) (mov : ℕ → ℕ → ℕ → ℝ) (SRrel : ℝ)
    (ini : ℕ → ℕ → ℝ) (BB : ℕ) (hm2 : 2 ≤ maxage)
    (hN : ∀ a A, 0 ≤ Ncurr a A) (hmov : ∀ A B, 0 ≤ mov (maxage - 1) A B)
    (hZ : ∀ A, A < nareas → 0 < Zcurr (maxage - 1) A) :
    popdynOneTScpp nareas maxage SSBcurr Ncurr Zcurr PerrYr hs R0a SSBpR aR bR
        mov SRrel 1 ini (maxage - 1) BB
      ≥ popdynOneTScpp nareas maxage SSBcurr Ncurr Zcurr PerrYr hs R0a SSBpR aR bR
          mov SRrel 0 ini (maxage - 1) BB
    ∧ (∀ A0, A0 < nareas → 0 < mov (maxage - 1) A0 BB → 0 < Ncurr (maxage - 2) A0 →
        popdynOneTScpp nareas maxage SSBcurr Ncurr Zcurr PerrYr hs R0a SSBpR aR bR
            mov SRrel 1 ini (maxage - 1) BB
          > popdynOneTScpp nareas maxage SSBcurr Ncurr Zcurr PerrYr hs R0a SSBpR aR bR
              mov SRrel 0 ini (maxage - 1) BB) := by
  have hne0 : ¬ (maxage - 1 = 0) := by omega
  have hidx : maxage - 1 - 1 = maxage - 2 := by omega
  have hpre0 : ∀ A, Nnextpre maxage SSBcurr Ncurr Zcurr PerrYr hs R0a SSBpR aR bR
      SRrel 0 ini (maxage - 1) A
        = Ncurr (maxage - 2) A * Real.exp (-Zcurr (maxage - 2) A) := by
    intro A
    simp [Nnextpre, hne0, hidx]
  have hpre1 : ∀ A, Nnextpre maxage SSBcurr Ncurr Zcurr PerrYr hs R0a SSBpR aR bR
      SRrel 1 ini (maxage - 1) A
        = Ncurr (maxage - 2) A * Real.exp (-Zcurr (maxage - 2) A)
            / (1 - Real.exp (-Zcurr (maxage - 1) A)) := by
    intro A
    simp [Nnextpre, hne0, hidx]
  have hv : ∀ A, 0 ≤ Ncurr (maxage - 2) A * Real.exp (-Zcurr (maxage - 2) A) :=
    fun A => mul_nonneg (hN _ _) (Real.exp_pos _).le
  have hden : ∀ A, A < nareas → 0 < 1 - Real.exp (-Zcurr (maxage - 1) A) := by
    intro A hA
    have : Real.exp (-Zcurr (maxage - 1) A) < 1 := by
      have := hZ A hA
      calc Real.exp (-Zcurr (maxage - 1) A) < Real.exp 0 :=
            Real.exp_lt_exp.mpr (by linarith)
        _ = 1 := Real.exp_zero
    linarith
  have hle : ∀ A, A < nareas →
      Nnextpre maxage SSBcurr Ncurr Zcurr PerrYr hs R0a SSBpR aR bR SRrel 0 ini
          (maxage - 1) A
        ≤ Nnextpre maxage SSBcurr Ncurr Zcurr PerrYr hs R0a SSBpR aR bR SRrel 1 ini
            (maxage - 1) A := by
    intro A hA
    rw [hpre0 A, hpre1 A, le_div_iff₀ (hden A hA)]
    have := hv A
    have hexp := (Real.exp_pos (-Zcurr (maxage - 1) A)).le
    nlinarith
  constructor
  · unfold popdynOneTScpp
    refine Finset.sum_le_sum fun A hA => ?_
    exact mul_le_mul_of_nonneg_right (hle A (Finset.mem_range.mp hA)) (hmov A BB)
  · intro A0 hA0 hmpos hNpos
    unfold popdynOneTScpp
    refine Finset.sum_lt_sum
      (fun A hA => mul_le_mul_of_nonneg_right (hle A (Finset.mem_range.mp hA))
        (hmov A BB))
      ⟨A0, Finset.mem_range.mpr hA0, ?_⟩
    have hstrict : Nnextpre maxage SSBcurr Ncurr Zcurr PerrYr hs R0a SSBpR aR bR
        SRrel 0 ini (maxage - 1) A0
          < Nnextpre maxage SSBcurr Ncurr Zcurr PerrYr hs R0a SSBpR aR bR SRrel 1 ini
              (maxage - 1) A0 := by
      rw [hpre0 A0, hpre1 A0, lt_div_iff₀ (hden A0 hA0)]
      have hvpos : 0 < Ncurr (maxage - 2) A0 * Real.exp (-Zcurr (maxage - 2) A0) :=
        mul_pos hNpos (Real.exp_pos _)
      have hexp := Real.exp_pos (-Zcurr (maxage - 1) A0)
      nlinarith
    exact mul_lt_mul_of_pos_right hstrict hmpos

/-- Witness for the amended C3 at a concrete one-area, two-age input with
unit abundances and Z = 1 at every age. -/
theorem C3_amended_witness :
    popdynOneTScpp 1 2 (fun _ => 1) (fun _ _ => 1) (fun _ _ => 1) 1 (1/2) (fun _ => 1)
        (fun _ => 1) (fun _ => 1) (fun _ => 1) (fun _ _ _ => 1) 1 1 (fun _ _ => 0) 1 0
      > popdynOneTScpp 1 2 (fun _ => 1) (fun _ _ => 1) (fun _ _ => 1) 1 (1/2) (fun _ => 1)
          (fun _ => 1) (fun _ => 1) (fun _ => 1) (fun _ _ _ => 1) 1 0 (fun _ _ => 0) 1 0 :=
  (C3_amended 1 2 (fun _ => 1) (fun _ _ => 1) (fun _ _ => 1) 1 (1/2) (fun _ => 1)
      (fun _ => 1) (fun _ => 1) (fun _ => 1) (fun _ _ _ => 1) 1 (fun _ _ => 0) 0
      (by norm_num) (fun _ _ => by norm_num) (fun _ _ => by norm_num)
      (fun _ _ => by norm_num)).2 0 (by norm_num) (by norm_num) (by norm_num)

/-- C10: when the stock-recruit selector is neither 1 nor 2, popdynOneTScpp
never writes the age-0 row of Nnext before the movement step reads it, so
the age-0 output is the movement-redistribution of whatever uninitialised
contents the matrix held; in particular two different uninitialised
contents produce two different age-0 outputs at identical proper inputs. -/
theorem C10_age0_unspecified :
    (∀ (nareas maxage : ℕ) (SSBcurr : ℕ → ℝ) (Ncurr Zcurr : ℕ → ℕ → ℝ)
        (PerrYr hs : ℝ) (R0a SSBpR aR bR : ℕ → ℝ) (mov : ℕ → ℕ → ℕ → ℝ) (SRrel : ℝ)
        (plusgroup : ℕ) (ini : ℕ → ℕ → ℝ) (BB : ℕ),
        SRrel ≠ 1 → SRrel ≠ 2 → 2 ≤ maxage →
      popdynOneTScpp nareas maxage SSBcurr Ncurr Zcurr PerrYr hs R0a SSBpR aR bR
          mov SRrel plusgroup ini 0 BB
        = ∑ A ∈ Finset.range nareas, ini 0 A * mov 0 A BB)
    ∧ popdynOneTScpp 1 2 (fun _ => 1) (fun _ _ => 1) (fun _ _ => 1) 1 (1/2) (fun _ => 1)
        (fun _ => 1) (fun _ => 1) (fun _ => 1) (fun _ _ _ => 1) 3 0 (fun _ _ => 0) 0 0
      ≠ popdynOneTScpp 1 2 (fun _ => 1) (fun _ _ => 1) (fun _ _ => 1) 1 (1/2) (fun _ => 1)
          (fun _ => 1) (fun _ => 1) (fun _ => 1) (fun _ _ _ => 1) 3 0 (fun _ _ => 1) 0 0 := by
  constructor
  · intro nareas maxage SSBcurr Ncurr Zcurr PerrYr hs R0a SSBpR aR bR mov SRrel
      plusgroup ini BB h1 h2 hm2
    have hne : ¬ ((0:ℕ) = maxage - 1) := by omega
    unfold popdynOneTScpp
    refine Finset.sum_congr rfl fun A _ => ?_
    simp [Nnextpre, recruit, hne, h1, h2]
  · norm_num [popdynOneTScpp, Nnextpre, recruit, Finset.sum_range_one]

/-- Witness for C10 at a concrete two-area input with selector 3. -/
theorem C10_age0_unspecified_witness :
    popdynOneTScpp 2 2 (fun _ => 1) (fun _ _ => 1) (fun _ _ => 1) 1 (1/2) (fun _ => 1)
        (fun _ => 1) (fun _ => 1) (fun _ => 1) (fun _ _ _ => 1/2) 3 0 (fun _ _ => 5) 0 0
      = ∑ A ∈ Finset.range 2,
          (fun (_ _ : ℕ) => (5:ℝ)) 0 A * (fun (_ _ _ : ℕ) => (1/2:ℝ)) 0 A 0 :=
  C10_age0_unspecified.1 2 2 _ _ _ _ _ _ _ _ _ _ 3 0 _ 0 (by norm_num) (by norm_num)
    (by norm_num)

/-- Characterisation of the natural-mortality cube: after k loop iterations
it holds the schedule at every written year y ≤ k and is zero elsewhere. -/
theorem Marray_stateAfter (inp : PDIn) (k : ℕ) (age y A : ℕ) :
    (stateAfter inp k).Marray age y A
      = if age < inp.maxage ∧ y ≤ k ∧ A < inp.nareas then inp.M_age age y
        else 0 := by
  induction k with
  | zero =>
    simp only [stateAfter, initState]
    by_cases h : age < inp.maxage ∧ y = 0 ∧ A < inp.nareas
    · obtain ⟨h1, h2, h3⟩ := h
      subst h2
      rw [if_pos ⟨h1, rfl, h3⟩, if_pos ⟨h1, le_refl 0, h3⟩]
    · rw [if_neg h,
        if_neg (by omega : ¬(age < inp.maxage ∧ y ≤ 0 ∧ A < inp.nareas))]
  | succ k ih =>
    simp only [stateAfter, step]
    rw [ih]
    by_cases h : age < inp.maxage ∧ y = k + 1 ∧ A < inp.nareas
    · obtain ⟨h1, h2, h3⟩ := h
      subst h2
      rw [if_pos ⟨h1, rfl, h3⟩, if_pos ⟨h1, le_refl _, h3⟩]
    · rw [if_neg h]
      by_cases h' : age < inp.maxage ∧ y ≤ k ∧ A < inp.nareas
      · rw [if_pos h',
          if_pos (by omega : age < inp.maxage ∧ y ≤ k + 1 ∧ A < inp.nareas)]
      · rw [if_neg h',
          if_neg (by omega : ¬(age < inp.maxage ∧ y ≤ k + 1 ∧ A < inp.nareas))]

/-- When the cap is nonnegative, at every point of the projection the
clamped fishing-mortality cube is at most maxF and the total-mortality cube
is at most the natural-mortality cube plus maxF. -/
theorem clampInvariant (inp : PDIn) (hF : 0 ≤ inp.maxF) (k : ℕ) :
    (∀ a y r, (stateAfter inp k).FMarray a y r ≤ inp.maxF)
    ∧ (∀ a y r, (stateAfter inp k).Zarray a y r
        ≤ (stateAfter inp k).Marray a y r + inp.maxF) := by
  induction k with
  | zero =>
    constructor
    · intro a y r
      simp only [stateAfter, initState, clampF]
      exact min_le_right _ _
    · intro a y r
      simp only [stateAfter, initState, clampF]
      by_cases h : a < inp.maxage ∧ y = 0 ∧ r < inp.nareas
      · obtain ⟨h1, h2, h3⟩ := h
        subst h2
        rw [if_pos ⟨h1, rfl, h3⟩, if_pos ⟨h1, rfl, h3⟩]
        have := min_le_right (FMraw0 inp a 0 r) inp.maxF
        linarith
      · rw [if_neg h, if_neg h]
        linarith
  | succ k ih =>
    obtain ⟨ihFM, ihZ⟩ := ih
    constructor
    · intro a y r
      simp only [stateAfter, step]
      by_cases hc : inp.control = 3
      · rw [if_pos hc]
        exact ihFM a y r
      · rw [if_neg hc]
        exact min_le_right _ _
    · intro a y r
      simp only [stateAfter, step]
      by_cases h : a < inp.maxage ∧ y = k + 1 ∧ r < inp.nareas
      · obtain ⟨h1, h2, h3⟩ := h
        subst h2
        have hg : a < inp.maxage ∧ k + 1 = k + 1 ∧ r < inp.nareas := ⟨h1, rfl, h3⟩
        rw [if_pos hg, if_pos hg]
        by_cases hc : inp.control = 3
        · rw [if_pos hc]
          linarith
        · rw [if_neg hc]
          have := min_le_right (FMrawN inp k (stateAfter inp k) a (k + 1) r) inp.maxF
          simp only [clampF]
          linarith
      · rw [if_neg h, if_neg h]
        exact ihZ a y r

/-- In control mode 3 with a nonnegative cap, the fishing-mortality cubes
stay zero throughout the projection and the total-mortality cube equals
the natural-mortality cube everywhere. -/
theorem mode3Invariant (inp : PDIn) (h3 : inp.control = 3) (hF : 0 ≤ inp.maxF)
    (k : ℕ) :
    (∀ a y r, (stateAfter inp k).FMarray a y r = 0)
    ∧ (∀ a y r, (stateAfter inp k).FMretarray a y r = 0)
    ∧ (∀ a y r, (stateAfter inp k).Zarray a y r
        = (stateAfter inp k).Marray a y r) := by
  induction k with
  | zero =>
    have hraw : ∀ a y r, FMraw0 inp a y r = 0 := by
      intro a y r
      simp [FMraw0, h3]
    have hrawret : ∀ a y r, FMretraw0 inp a y r = 0 := by
      intro a y r
      simp [FMretraw0, h3]
    refine ⟨?_, ?_, ?_⟩
    · intro a y r
      simp only [stateAfter, initState, clampF, hraw]
      exact min_eq_left hF
    · intro a y r
      simp only [stateAfter, initState, clampF, hrawret]
      exact min_eq_left hF
    · intro a y r
      simp only [stateAfter, initState, clampF, hraw]
      rw [min_eq_left hF]
      by_cases h : a < inp.maxage ∧ y = 0 ∧ r < inp.nareas
      · rw [if_pos h, if_pos h, add_zero]
      · rw [if_neg h, if_neg h]
  | succ k ih =>
    obtain ⟨ihFM, ihFMret, ihZ⟩ := ih
    refine ⟨?_, ?_, ?_⟩
    · intro a y r
      simp only [stateAfter, step]
      rw [if_pos h3]
      exact ihFM a y r
    · intro a y r
      simp only [stateAfter, step]
      rw [if_pos h3]
      exact ihFMret a y r
    · intro a y r
      simp only [stateAfter, step]
      by_cases h : a < inp.maxage ∧ y = k + 1 ∧ r < inp.nareas
      · rw [if_pos h, if_pos h, if_pos h3]
      · rw [if_neg h, if_neg h]
        exact ihZ a y r

/-- The fields modelling the caller's R0c, aRc, bRc vectors are never
written by the loop; only their clones are. -/
theorem callerVectors (inp : PDIn) (k : ℕ) :
    (stateAfter inp k).R0cIn = inp.R0c ∧ (stateAfter inp k).aRcIn = inp.aRc
    ∧ (stateAfter inp k).bRcIn = inp.bRc := by
  induction k with
  | zero => exact ⟨rfl, rfl, rfl⟩
  | succ k ih => simpa only [stateAfter, step] using ih

/-- C2 counterexample: a concrete one-area, one-age, one-year run in
control mode 1 with natural mortality 1, raw fishing mortality 2 and cap
maxF = 1/2; the stored total mortality is 1 + 1/2 = 3/2, exceeding maxF,
so the Z array is not bounded by the cap. -/
theorem C2_counterexample : (popdynCPP C2inp).Zarray 0 0 0 > C2inp.maxF := by
  have ht : tempVec0 C2inp 0 = 1 := by
    norm_num [tempVec0, VB0, C2inp, Finset.sum_range_one, Finset.range_one,
      Finset.sum_singleton, Finset.filter_eq, Finset.filter_eq',
      Finset.mem_singleton, Finset.card_singleton]
  have hfd : fishdist0 C2inp 0 = 1 := by
    have hs : C2inp.nareas = 1 := rfl
    have hsp : C2inp.Spat_targc = 1 := rfl
    unfold fishdist0
    rw [hs, hsp, Finset.sum_range_one, ht, Real.rpow_one]
    norm_num
  have hFM : clampF C2inp.maxF (FMraw0 C2inp) 0 0 0 = 1/2 := by
    unfold clampF FMraw0
    rw [hfd]
    norm_num [C2inp, min_def]
  show (stateAfter C2inp 0).Zarray 0 0 0 > C2inp.maxF
  simp only [stateAfter, initState]
  rw [if_pos (show 0 < C2inp.maxage ∧ True ∧ 0 < C2inp.nareas from
    ⟨by norm_num [C2inp], trivial, by norm_num [C2inp]⟩), hFM]
  norm_num [C2inp]

/-- C2 (amended): when the cap maxF is nonnegative, the clamping bounds the
realized fishing mortality by maxF at every year, age and area, so the
realized total mortality is bounded by the natural-mortality schedule plus
maxF (rather than by maxF itself). -/
theorem C2_mortality_cap (inp : PDIn) (hF : 0 ≤ inp.maxF) (a y r : ℕ)
    (ha : a < inp.maxage) (hy : y < inp.pyears) (hr : r < inp.nareas) :
    (popdynCPP inp).FMarray a y r ≤ inp.maxF
    ∧ (popdynCPP inp).Zarray a y r ≤ inp.M_age a y + inp.maxF := by
  obtain ⟨hFM, hZ⟩ := clampInvariant inp hF (inp.pyears - 1)
  simp only [popdynCPP]
  refine ⟨hFM a y r, ?_⟩
  have h := hZ a y r
  rw [Marray_stateAfter] at h
  rwa [if_pos ⟨ha, by omega, hr⟩] at h

/-- Witness for the amended C2 at the concrete C2 input. -/
theorem C2_mortality_cap_witness :
    (popdynCPP C2inp).FMarray 0 0 0 ≤ C2inp.maxF
    ∧ (popdynCPP C2inp).Zarray 0 0 0 ≤ C2inp.M_age 0 0 + C2inp.maxF :=
  C2_mortality_cap C2inp (by norm_num [C2inp]) 0 0 0 (by norm_num [C2inp])
    (by norm_num [C2inp]) (by norm_num [C2inp])

/-- C5: in every projection year after year 0, the effort share stored for
the next year is the closure-masked normalised weight times
(fracE + (1 - fracE))/fracE, and whenever fracE > 0 the final shares sum
to 1 across areas. -/
theorem C5_effort_reallocation (inp : PDIn) (yr : ℕ) (hyr : yr + 1 < inp.pyears) :
    (∀ A, (stateAfter inp (yr + 1)).fishdist A
        = d1 inp yr (stateAfter inp yr) A
            * (fracE inp yr (stateAfter inp yr)
                + (1 - fracE inp yr (stateAfter inp yr)))
            / fracE inp yr (stateAfter inp yr))
    ∧ (0 < fracE inp yr (stateAfter inp yr) →
        ∑ A ∈ Finset.range inp.nareas, (stateAfter inp (yr + 1)).fishdist A = 1) := by
  have hfd : ∀ A, (stateAfter inp (yr + 1)).fishdist A
      = fracE2 inp yr (stateAfter inp yr) A := fun A => rfl
  constructor
  · intro A
    rw [hfd A]
    rfl
  · intro hpos
    have hne : fracE inp yr (stateAfter inp yr) ≠ 0 := ne_of_gt hpos
    have h1 : ∀ A, (stateAfter inp (yr + 1)).fishdist A
        = d1 inp yr (stateAfter inp yr) A / fracE inp yr (stateAfter inp yr) := by
      intro A
      rw [hfd A]
      unfold fracE2
      rw [show fracE inp yr (stateAfter inp yr)
          + (1 - fracE inp yr (stateAfter inp yr)) = 1 by ring, mul_one]
    rw [Finset.sum_congr rfl fun A _ => h1 A, ← Finset.sum_div]
    rw [show ∑ A ∈ Finset.range inp.nareas, d1 inp yr (stateAfter inp yr) A
        = fracE inp yr (stateAfter inp yr) from rfl]
    exact div_self hne

/-- Witness for C5 at the concrete C5 input in its first loop iteration. -/
theorem C5_effort_reallocation_witness :
    ∑ A ∈ Finset.range C5inp.nareas, (stateAfter C5inp (0 + 1)).fishdist A = 1 :=
  (C5_effort_reallocation C5inp 0 (by norm_num [C5inp])).2 (by
    have h : fracE C5inp 0 (stateAfter C5inp 0) = 1 := by
      norm_num [fracE, d1, fishdistN, tempVecN, NextYrN, SBsel, SBcurrY,
        popdynOneTScpp, Nnextpre, recruit, stateAfter, initState, C5inp,
        Finset.sum_range_one, Finset.range_one, Finset.sum_singleton,
        Finset.filter_eq, Finset.filter_eq', Finset.mem_singleton,
        Finset.card_singleton, Real.one_rpow, Real.rpow_one]
    rw [h]
    norm_num)

/-- C6: the recruitment-deviation multiplier passed to the transition from
year yr to year yr+1 is the deviation series element at index yr + maxage:
the new numbers-at-age are the popdynOneTScpp result at Prec(yr + maxage). -/
theorem C6_deviation_offset (inp : PDIn) (yr : ℕ) (hyr : yr + 1 < inp.pyears)
    (a r : ℕ) (ha : a < inp.maxage) (hr : r < inp.nareas) :
    (stateAfter inp (yr + 1)).Narray a (yr + 1) r
      = popdynOneTScpp inp.nareas inp.maxage (SBsel inp yr (stateAfter inp yr))
          (fun a' r' => (stateAfter inp yr).Narray a' yr r')
          (fun a' r' => (stateAfter inp yr).Zarray a' yr r')
          (inp.Prec (yr + inp.maxage)) inp.hc (stateAfter inp yr).R0c2 inp.SSBpRc
          (stateAfter inp yr).aRc2 (stateAfter inp yr).bRc2 (inp.movc yr)
          inp.SRrelc inp.plusgroup (inp.ini yr) a r := by
  have hg : a < inp.maxage ∧ True ∧ r < inp.nareas := ⟨ha, trivial, hr⟩
  simp only [stateAfter, step]
  rw [if_pos hg]
  rfl

/-- Witness for C6 at the concrete C6 input for its first transition. -/
theorem C6_deviation_offset_witness :
    (stateAfter C6inp (0 + 1)).Narray 0 (0 + 1) 0
      = popdynOneTScpp C6inp.nareas C6inp.maxage (SBsel C6inp 0 (stateAfter C6inp 0))
          (fun a' r' => (stateAfter C6inp 0).Narray a' 0 r')
          (fun a' r' => (stateAfter C6inp 0).Zarray a' 0 r')
          (C6inp.Prec (0 + C6inp.maxage)) C6inp.hc (stateAfter C6inp 0).R0c2
          C6inp.SSBpRc (stateAfter C6inp 0).aRc2 (stateAfter C6inp 0).bRc2
          (C6inp.movc 0) C6inp.SRrelc C6inp.plusgroup (C6inp.ini 0) 0 0 :=
  C6_deviation_offset C6inp 0 (by norm_num [C6inp]) 0 0 (by norm_num [C6inp])
    (by norm_num [C6inp])

/-- C8 counterexample: in control mode 3 with a negative cap maxF = -1, the
unconditional year-0 Fmax clamp replaces the zero-filled fishing-mortality
cube by maxF, so the realized fishing mortality is -1, not zero. -/
theorem C8_counterexample : (popdynCPP C8cexinp).FMarray 0 0 0 ≠ 0 := by
  show (stateAfter C8cexinp 0).FMarray 0 0 0 ≠ 0
  simp only [stateAfter, initState]
  norm_num [clampF, FMraw0, C8cexinp, min_def]

/-- C8 (amended): in control mode 3 with a nonnegative cap, the realized fishing
mortality and retained fishing mortality are zero at every year, age and
area, and the realized total mortality equals the natural-mortality
schedule alone. -/
theorem C8_mode3_no_fishing (inp : PDIn) (h3 : inp.control = 3)
    (hF : 0 ≤ inp.maxF) (a y r : ℕ) (ha : a < inp.maxage) (hy : y < inp.pyears)
    (hr : r < inp.nareas) :
    (popdynCPP inp).FMarray a y r = 0 ∧ (popdynCPP inp).FMretarray a y r = 0
    ∧ (popdynCPP inp).Zarray a y r = inp.M_age a y := by
  obtain ⟨h1, h2, hZ⟩ := mode3Invariant inp h3 hF (inp.pyears - 1)
  simp only [popdynCPP]
  refine ⟨h1 a y r, h2 a y r, ?_⟩
  rw [hZ a y r, Marray_stateAfter, if_pos ⟨ha, by omega, hr⟩]

/-- Witness for C8 at the concrete control-mode-3 input. -/
theorem C8_mode3_no_fishing_witness :
    (popdynCPP C8inp).FMarray 0 0 0 = 0 ∧ (popdynCPP C8inp).FMretarray 0 0 0 = 0
    ∧ (popdynCPP C8inp).Zarray 0 0 0 = C8inp.M_age 0 0 :=
  C8_mode3_no_fishing C8inp rfl (by norm_num [C8inp]) 0 0 0 (by norm_num [C8inp])
    (by norm_num [C8inp]) (by norm_num [C8inp])

/-- C9: on return of popdynCPP the caller-supplied vectors R0c, aRc and bRc
are unchanged for every control mode: all updates (including the yearly
mode-3 recomputation) are applied to the internal clones R0c2, aRc2, bRc2
only, never to the caller's vectors. -/
theorem C9_caller_vectors_unchanged (inp : PDIn) :
    (popdynCPP inp).R0cIn = inp.R0c ∧ (popdynCPP inp).aRcIn = inp.aRc
    ∧ (popdynCPP inp).bRcIn = inp.bRc :=
  callerVectors inp (inp.pyears - 1)

/-- The one-timestep call NextYrN does not depend on which of control modes
1 and 2 is active. -/
theorem NextYrN_controls (inp : PDIn) (yr : ℕ) (s : PDState) :
    NextYrN (withControl inp 1) yr s = NextYrN (withControl inp 2) yr s := by
  unfold NextYrN SBsel SBcurrY withControl
  norm_num

/-- The reallocated effort shares do not depend on which of control modes
1 and 2 is active. -/
theorem fracE2_controls (inp : PDIn) (yr : ℕ) (s : PDState) :
    fracE2 (withControl inp 1) yr s = fracE2 (withControl inp 2) yr s := by
  have h := NextYrN_controls inp yr s
  unfold fracE2 fracE d1 fishdistN tempVecN
  rw [h]
  rfl

/-- With effort × catchability equal to the apical F for year yr+1, the raw
fishing-mortality cubes of control modes 1 and 2 coincide. -/
theorem FMrawN_controls (inp : PDIn) (yr : ℕ) (s : PDState)
    (hE : inp.Effind (yr + 1) * inp.Qc = inp.Fapic) :
    FMrawN (withControl inp 1) yr s = FMrawN (withControl inp 2) yr s := by
  have h := fracE2_controls inp yr s
  funext age y A
  unfold FMrawN
  rw [h]
  simp only [withControl]
  norm_num
  rw [hE]

/-- With effort × catchability equal to the apical F for year yr+1, the raw
retained-fishing-mortality cubes of control modes 1 and 2 coincide. -/
theorem FMretrawN_controls (inp : PDIn) (yr : ℕ) (s : PDState)
    (hE : inp.Effind (yr + 1) * inp.Qc = inp.Fapic) :
    FMretrawN (withControl inp 1) yr s = FMretrawN (withControl inp 2) yr s := by
  have h := fracE2_controls inp yr s
  funext age y A
  unfold FMretrawN
  rw [h]
  simp only [withControl]
  norm_num
  rw [hE]

/-- The year-0 effort distribution does not depend on the control mode. -/
theorem fishdist0_controls (inp : PDIn) :
    fishdist0 (withControl inp 1) = fishdist0 (withControl inp 2) := rfl

/-- With effort × catchability equal to the apical F for year 0, the raw
year-0 fishing-mortality cubes of control modes 1 and 2 coincide. -/
theorem FMraw0_controls (inp : PDIn) (hE0 : inp.Effind 0 * inp.Qc = inp.Fapic) :
    FMraw0 (withControl inp 1) = FMraw0 (withControl inp 2) := by
  funext age y A
  unfold FMraw0
  rw [fishdist0_controls inp]
  simp only [withControl]
  norm_num
  rw [hE0]

/-- With effort × catchability equal to the apical F for year 0, the raw
year-0 retained-fishing-mortality cubes of modes 1 and 2 coincide. -/
theorem FMretraw0_controls (inp : PDIn) (hE0 : inp.Effind 0 * inp.Qc = inp.Fapic) :
    FMretraw0 (withControl inp 1) = FMretraw0 (withControl inp 2) := by
  funext age y A
  unfold FMretraw0
  rw [fishdist0_controls inp]
  simp only [withControl]
  norm_num
  rw [hE0]

/-- The year-0 initialisations of control modes 1 and 2 coincide when
effort × catchability equals the apical F at year 0. -/
theorem init_controls (inp : PDIn) (hE0 : inp.Effind 0 * inp.Qc = inp.Fapic) :
    initState (withControl inp 1) = initState (withControl inp 2) := by
  unfold initState
  rw [FMraw0_controls inp hE0, FMretraw0_controls inp hE0, fishdist0_controls inp]
  rfl

/-- The loop bodies of control modes 1 and 2 coincide when
effort × catchability equals the apical F at year yr+1. -/
theorem step_controls (inp : PDIn) (yr : ℕ) (s : PDState)
    (hE : inp.Effind (yr + 1) * inp.Qc = inp.Fapic) :
    step (withControl inp 1) yr s = step (withControl inp 2) yr s := by
  have hN := NextYrN_controls inp yr s
  have hf2 := fracE2_controls inp yr s
  have hFM := FMrawN_controls inp yr s hE
  have hFMret := FMretrawN_controls inp yr s hE
  unfold step
  rw [hN, hf2, hFM, hFMret]
  norm_num [withControl]

/-- The whole projections of control modes 1 and 2 coincide when
effort × catchability equals the apical F in every year. -/
theorem stateAfter_controls (inp : PDIn)
    (hE : ∀ y, inp.Effind y * inp.Qc = inp.Fapic) (k : ℕ) :
    stateAfter (withControl inp 1) k = stateAfter (withControl inp 2) k := by
  induction k with
  | zero => exact init_controls inp (hE 0)
  | succ k ih =>
    simp only [stateAfter]
    rw [ih]
    exact step_controls inp k _ (hE (k + 1))

/-- C7: with one area, no closures, and effort × catchability equal to the
apical F in every year, running popdynCPP in control mode 1 and in control
mode 2 produces identical fishing-mortality-at-age and identical
retained-fishing-mortality-at-age fields. -/
theorem C7_mode_equivalence (inp : PDIn) (hA : inp.nareas = 1)
    (hMPA : ∀ y A, inp.MPA y A = 1)
    (hE : ∀ y, inp.Effind y * inp.Qc = inp.Fapic) :
    (popdynCPP (withControl inp 1)).FMarray = (popdynCPP (withControl inp 2)).FMarray
    ∧ (popdynCPP (withControl inp 1)).FMretarray
        = (popdynCPP (withControl inp 2)).FMretarray := by
  have h := stateAfter_controls inp hE ((withControl inp 1).pyears - 1)
  unfold popdynCPP
  rw [h]
  exact ⟨rfl, rfl⟩

/-- Witness for C7 at the concrete C7 input (effort 1, catchability 1,
apical F 1). -/
theorem C7_mode_equivalence_witness :
    (popdynCPP (withControl C7inp 1)).FMarray
      = (popdynCPP (withControl C7inp 2)).FMarray :=
  (C7_mode_equivalence C7inp rfl (fun _ _ => rfl) (fun _ => by norm_num [C7inp])).1

end PopDyn
